import Mathlib

/-!
Shallow embedding of the `3dshape-explorer` repository: an STL model viewer
built on three.js plus a small calculator widget.  The embedding models

* vertex lists and axis-aligned bounding boxes (`V3`, `coordMin`, …),
  together with the centering / auto-scale / camera-fit arithmetic of the
  three viewer variants (`src/src/components/ThreeViewer.tsx`,
  `src/src/components/three/useModelLoader.ts`, and the `loadModel` and
  `loadOptimizedModel` functions of the unnamed viewer files);
* the viewer's mesh/loading state as an explicit state machine
  (`VState`, `stepUML`, `stepLM`);
* the level-of-detail index selection of the controls change listener
  (`lodIndex`);
* the optimized-mesh payload pipeline (`OptimizedMesh`, `loadOptimizedModel`);
* the calculator's `calculateExpression` handler, with the JavaScript
  `eval`-and-stringify step supplied as an oracle.

Numbers are embedded as `ℚ` where the arithmetic is rational and as `ℝ`
where the source uses `Math.tan` and `Math.PI`.
-/

namespace ShapeExplorer

/-- A vertex position, one entry of a three.js BufferGeometry position
attribute. -/
@[ext]
structure V3 where
  x : ℚ
  y : ℚ
  z : ℚ
deriving DecidableEq, Repr

/-- Minimum of a coordinate list: three.js `Box3.setFromBufferAttribute`
folds `min` over the positions.  The head of the list seeds the fold; a
successfully parsed model has at least one vertex, and the `0` default for
the empty list is never exercised by the theorems. -/
def coordMin : List ℚ → ℚ
  | [] => 0
  | a :: r => r.foldl min a

/-- Maximum of a coordinate list, dual to `coordMin`. -/
def coordMax : List ℚ → ℚ
  | [] => 0
  | a :: r => r.foldl max a

/-- Midpoint of the bounding interval: three.js `Box3.getCenter` computes
`(min + max) * 0.5`. -/
def coordCenter (l : List ℚ) : ℚ := (coordMin l + coordMax l) / 2

/-- Extent of the bounding interval: three.js `Box3.getSize` computes
`max - min`. -/
def coordSize (l : List ℚ) : ℚ := coordMax l - coordMin l

/-- The x coordinates of a vertex list. -/
def xs (vs : List V3) : List ℚ := vs.map V3.x

/-- The y coordinates of a vertex list. -/
def ys (vs : List V3) : List ℚ := vs.map V3.y

/-- The z coordinates of a vertex list. -/
def zs (vs : List V3) : List ℚ := vs.map V3.z

/-- Center of the axis-aligned bounding box of a vertex list
(`geometry.boundingBox.getCenter`). -/
def bboxCenter (vs : List V3) : V3 :=
  ⟨coordCenter (xs vs), coordCenter (ys vs), coordCenter (zs vs)⟩

/-- Size of the axis-aligned bounding box of a vertex list
(`boundingBox.getSize(size)`). -/
def bboxSize (vs : List V3) : V3 :=
  ⟨coordSize (xs vs), coordSize (ys vs), coordSize (zs vs)⟩

/-- Largest bounding-box dimension:
`Math.max(size.x, size.y, size.z)` in every viewer variant. -/
def maxDim (vs : List V3) : ℚ :=
  max (max (bboxSize vs).x (bboxSize vs).y) (bboxSize vs).z

/-- three.js `geometry.center()`: translate every vertex by the negated
bounding-box center. -/
def centerGeometry (vs : List V3) : List V3 :=
  vs.map (fun v =>
    ⟨v.x - (bboxCenter vs).x, v.y - (bboxCenter vs).y, v.z - (bboxCenter vs).z⟩)

/-- A mesh as placed into the scene by a load-success path: its (possibly
translated) geometry vertices, its `mesh.position`, and its `mesh.scale`. -/
structure PlacedMesh where
  verts : List V3
  position : V3
  scale : V3
deriving DecidableEq, Repr

/-- Mesh placement of `loadModel` in the first unnamed viewer file
(src/unnamed/part_001 lines 125-152): `geometry.center()` is called, the
auto-scale sets `mesh.scale` to `2 / maxDim` on each axis, and
`mesh.position` is never assigned, so it stays at the origin. -/
def loadModelPlace (vs : List V3) : PlacedMesh :=
  { verts := centerGeometry vs
    position := ⟨0, 0, 0⟩
    scale := ⟨2 / maxDim vs, 2 / maxDim vs, 2 / maxDim vs⟩ }

/-- Mesh placement of the inline STL effect of
src/src/components/ThreeViewer.tsx (lines 85-95): the pre-centering
bounding-box center is read into `center`, `geometry.center()` runs, and
then `mesh.position.copy(center)` assigns the original center to the mesh
position; `mesh.scale` is untouched (identity). -/
def threeViewerPlace (vs : List V3) : PlacedMesh :=
  { verts := centerGeometry vs
    position := bboxCenter vs
    scale := ⟨1, 1, 1⟩ }

/-- Divisor of the `loadModel` auto-scale `const scale = 2 / maxDim`
(src/unnamed/part_001 line 139). -/
def lmScaleDivisor (vs : List V3) : ℚ := maxDim vs

/-- The `Math.tan((fov * Math.PI) / 360)` subterm shared by every
camera-fit computation in the repository. -/
noncomputable def tanHalfFov (fov : ℝ) : ℝ := Real.tan (fov * Real.pi / 360)

/-- Divisor of `useModelLoader`'s camera-fit computation
`maxDim / (2 * Math.tan((fov * Math.PI) / 360))`
(src/src/components/three/useModelLoader.ts line 53). -/
noncomputable def umlDistanceDivisor (fov : ℝ) : ℝ := 2 * tanHalfFov fov

/-- Divisor of `loadModel`'s camera-fit computation
`(maxDim * 1.5) / Math.tan((fov * Math.PI) / 360)`
(src/unnamed/part_001 line 145). -/
noncomputable def lmCameraDivisor (fov : ℝ) : ℝ := tanHalfFov fov

/-- Camera z position set by `useModelLoader`
(src/src/components/three/useModelLoader.ts lines 53-56):
`maxDistance = maxDim / (2 * tan(fov*pi/360))`, then
`camera.position.z = maxDistance * 1.5`. -/
noncomputable def cameraZ_useModelLoader (maxD fov : ℝ) : ℝ :=
  maxD / (2 * tanHalfFov fov) * 1.5

/-- Camera z position set by `loadOptimizedModel` and by the STL branch of
the second unnamed viewer (src/unnamed/part_001 lines 331-334 and 420-423):
identical arithmetic to `useModelLoader`. -/
noncomputable def cameraZ_loadOptimized (maxD fov : ℝ) : ℝ :=
  maxD / (2 * tanHalfFov fov) * 1.5

/-- Camera z position set by the inline `loadModel` loader
(src/unnamed/part_001 lines 145-146):
`cameraDistance = (maxDim * 1.5) / tan(fov*pi/360)`, assigned directly. -/
noncomputable def cameraZ_loadModel (maxD fov : ℝ) : ℝ :=
  maxD * 1.5 / tanHalfFov fov

/-- Level-of-detail index chosen by the controls change listener
(src/unnamed/part_001 lines 347-352):
`Math.min(Math.floor((distance / maxDistance) * levels.length),
levels.length - 1)`. -/
def lodIndex (distance maxDistance : ℚ) (numLevels : ℕ) : ℤ :=
  min ⌊distance / maxDistance * (numLevels : ℚ)⌋ ((numLevels : ℤ) - 1)

/-- Events of the callback-shaped loaders (`useModelLoader`, the STL load
effects of ThreeViewer.tsx and of the unnamed viewers): an effect run with
its guard data, a success callback, an error callback, and a controls
change (the LOD listener, which never touches the scene graph or the
loading flag). -/
inductive Ev where
  | startLoad (url : String) (sceneInit : Bool)
  | loadSuccess
  | loadError
  | controlsChange
deriving DecidableEq, Repr

/-- Events of the `loadModel` variant (src/unnamed/part_001 lines 80-162),
whose remove-and-dispose step runs at load start, before the asynchronous
fetch, rather than inside the success callback. -/
inductive EvLM where
  | lmStart (url : String) (sceneInit : Bool)
  | lmSuccess
  | lmError
deriving DecidableEq, Repr

/-- Viewer state: ids of the model meshes attached to the scene, the
`meshRef` ref, the `isLoading` flag, and the sets of disposed geometry and
material ids.  A mesh id also names the geometry and material created with
it (each `new THREE.Mesh(geometry, material)` pairs fresh objects).
`nextId` supplies fresh ids. -/
structure VState where
  scene : List ℕ
  meshRef : Option ℕ
  isLoading : Bool
  disposedGeom : List ℕ
  disposedMat : List ℕ
  nextId : ℕ
deriving DecidableEq, Repr

/-- The state before any load: empty scene, empty `meshRef`, flag down. -/
def initState : VState := ⟨[], none, false, [], [], 0⟩

/-- three.js `scene.remove(mesh)`: detach that object if attached. -/
def removeMesh (scene : List ℕ) (m : ℕ) : List ℕ :=
  scene.filter (fun k => k ≠ m)

/-- One step of the callback-shaped loaders.

* `startLoad`: the effect body `if (!modelUrl || !sceneRef.current) return;
  setIsLoading(true);` (useModelLoader.ts lines 22-24).
* `loadSuccess`: the success callback (useModelLoader.ts lines 29-63):
  if `meshRef.current` is set, `scene.remove` it, then attach a fresh mesh,
  set `meshRef` to it and clear the flag.  Nothing is disposed.
* `loadError`: the error callback (useModelLoader.ts lines 65-69):
  `setIsLoading(false)` and a toast; nothing else.
* `controlsChange`: the LOD listener; swaps geometry data in place only. -/
def stepUML (s : VState) (e : Ev) : VState :=
  match e with
  | .startLoad url sceneInit =>
    if url = "" ∨ sceneInit = false then s else { s with isLoading := true }
  | .loadSuccess =>
    { s with
      scene := (match s.meshRef with
                | some m => removeMesh s.scene m
                | none => s.scene) ++ [s.nextId],
      meshRef := some s.nextId,
      isLoading := false, nextId := s.nextId + 1 }
  | .loadError => { s with isLoading := false }
  | .controlsChange => s

/-- Run a sequence of callback-loader events. -/
def runUML (s : VState) (es : List Ev) : VState := es.foldl stepUML s

/-- One step of the `loadModel` variant.

* `lmStart` (src/unnamed/part_001 lines 78-90): after the effect guard,
  `setIsLoading(true)`, then if `meshRef.current` is set it is removed from
  the scene and its geometry and material are disposed; `meshRef` itself is
  not cleared.
* `lmSuccess` (lines 151-156): the fetched geometry is wrapped in a fresh
  mesh, added to the scene, `meshRef` is set to it, and the flag cleared.
* `lmError` (lines 157-161): `setIsLoading(false)` and a toast only. -/
def stepLM (s : VState) (e : EvLM) : VState :=
  match e with
  | .lmStart url sceneInit =>
    if url = "" ∨ sceneInit = false then s
    else
      match s.meshRef with
      | some m =>
        { s with isLoading := true, scene := removeMesh s.scene m,
                 disposedGeom := m :: s.disposedGeom,
                 disposedMat := m :: s.disposedMat }
      | none => { s with isLoading := true }
  | .lmSuccess =>
    { s with scene := s.scene ++ [s.nextId], meshRef := some s.nextId,
             isLoading := false, nextId := s.nextId + 1 }
  | .lmError => { s with isLoading := false }

/-- Run a sequence of `loadModel`-variant events. -/
def runLM (s : VState) (es : List EvLM) : VState := es.foldl stepLM s

/-- Scene invariant maintained by the callback-shaped loaders: at most one
model mesh is attached, and any attached mesh is the one `meshRef` holds. -/
def sceneInv (s : VState) : Prop :=
  s.scene.length ≤ 1 ∧ ∀ m ∈ s.scene, s.meshRef = some m

instance (s : VState) : Decidable (sceneInv s) := by
  unfold sceneInv
  infer_instance

/-- Calculator state: the input field, the displayed result, and the stack
of toasts shown (most recent first). -/
structure CalcState where
  expression : String
  result : String
  toasts : List String
deriving DecidableEq, Repr

/-- The calculator's Calculate handler (src/unnamed/part_000 lines 10-20).
The JavaScript step `eval(expression)` followed by `.toString()` is
supplied as the oracle `evalToString`, returning `none` when that code
would throw.  On success the stringified value is stored in `result` and a
success toast fires; on failure only the `Invalid expression` toast fires
and `result` keeps its previous value. -/
def calculateExpression (evalToString : String → Option String)
    (s : CalcState) : CalcState :=
  match evalToString s.expression with
  | some v => { s with result := v, toasts := "Calculation completed!" :: s.toasts }
  | none => { s with toasts := "Invalid expression" :: s.toasts }

/-- One detail level of the optimized-mesh payload
(src/unnamed/part_001 lines 206-215). -/
structure LODLevel where
  vertices : List (List ℚ)
  faces : List (List ℕ)
  normals : List (List ℚ)
  detail : ℚ
deriving DecidableEq, Repr

/-- The optimized-mesh payload (src/unnamed/part_001 lines 206-215). -/
structure OptimizedMesh where
  format : String
  version : ℕ
  levels : List LODLevel
deriving DecidableEq, Repr

/-- The geometry built from one detail level: flattened position, index
and normal buffers (src/unnamed/part_001 lines 293-305). -/
structure BuiltGeometry where
  position : List ℚ
  index : List ℕ
  normal : List ℚ
deriving DecidableEq, Repr

/-- Build the BufferGeometry from one detail level: `level.vertices.flat()`
etc. (src/unnamed/part_001 lines 293-305). -/
def buildGeometry (level : LODLevel) : BuiltGeometry :=
  ⟨level.vertices.flatten, level.faces.flatten, level.normals.flatten⟩

/-- The payload-processing core of `loadOptimizedModel`
(src/unnamed/part_001 lines 284-305): after the format check, the code
reads `data.levels[0]` unconditionally; on an empty `levels` array the
JavaScript access yields `undefined` and the subsequent
`level.vertices.flat()` throws a TypeError into the surrounding catch,
modelled by the `.error` branch on `head? = none`. -/
def loadOptimizedModel (data : OptimizedMesh) : Except String BuiltGeometry :=
  if data.format ≠ "optimized-mesh" then .error "Invalid format"
  else
    match data.levels.head? with
    | none => .error "TypeError"
    | some level => .ok (buildGeometry level)

/-! ### Helper lemmas -/

/-- The tangent subterm of the camera-fit arithmetic is positive at the
fov of 75 degrees that every viewer variant configures. -/
theorem tanHalfFov_pos : 0 < tanHalfFov 75 := by
  unfold tanHalfFov
  apply Real.tan_pos_of_pos_of_lt_pi_div_two
  · positivity
  · linarith [Real.pi_pos]

theorem foldl_min_map_sub (c : ℚ) (r : List ℚ) :
    ∀ a, (r.map (fun x => x - c)).foldl min (a - c) = r.foldl min a - c := by
  induction r with
  | nil => intro a; rfl
  | cons b r ih =>
    intro a
    simp only [List.map_cons, List.foldl_cons, min_sub_sub_right]
    exact ih (min a b)

theorem foldl_max_map_sub (c : ℚ) (r : List ℚ) :
    ∀ a, (r.map (fun x => x - c)).foldl max (a - c) = r.foldl max a - c := by
  induction r with
  | nil => intro a; rfl
  | cons b r ih =>
    intro a
    simp only [List.map_cons, List.foldl_cons, max_sub_sub_right]
    exact ih (max a b)

theorem coordMin_map_sub (c : ℚ) (l : List ℚ) (h : l ≠ []) :
    coordMin (l.map (fun x => x - c)) = coordMin l - c := by
  cases l with
  | nil => exact absurd rfl h
  | cons a r => exact foldl_min_map_sub c r a

theorem coordMax_map_sub (c : ℚ) (l : List ℚ) (h : l ≠ []) :
    coordMax (l.map (fun x => x - c)) = coordMax l - c := by
  cases l with
  | nil => exact absurd rfl h
  | cons a r => exact foldl_max_map_sub c r a

theorem coordCenter_map_sub (c : ℚ) (l : List ℚ) (h : l ≠ []) :
    coordCenter (l.map (fun x => x - c)) = coordCenter l - c := by
  unfold coordCenter
  rw [coordMin_map_sub c l h, coordMax_map_sub c l h]
  ring

/-- Recentering a coordinate list by its own center brings the center to
zero. -/
theorem coordCenter_recenter (l : List ℚ) (h : l ≠ []) :
    coordCenter (l.map (fun x => x - coordCenter l)) = 0 := by
  rw [coordCenter_map_sub (coordCenter l) l h, sub_self]

theorem xs_centerGeometry (vs : List V3) :
    xs (centerGeometry vs) = (xs vs).map (fun a => a - (bboxCenter vs).x) := by
  simp [xs, centerGeometry, List.map_map, Function.comp]

theorem ys_centerGeometry (vs : List V3) :
    ys (centerGeometry vs) = (ys vs).map (fun a => a - (bboxCenter vs).y) := by
  simp [ys, centerGeometry, List.map_map, Function.comp]

theorem zs_centerGeometry (vs : List V3) :
    zs (centerGeometry vs) = (zs vs).map (fun a => a - (bboxCenter vs).z) := by
  simp [zs, centerGeometry, List.map_map, Function.comp]

/-- `geometry.center()` brings the bounding-box center of a nonempty vertex
list to the origin. -/
theorem bboxCenter_centerGeometry (vs : List V3) (h : vs ≠ []) :
    bboxCenter (centerGeometry vs) = ⟨0, 0, 0⟩ := by
  have hx : xs vs ≠ [] := fun hn => h (List.map_eq_nil_iff.mp hn)
  have hy : ys vs ≠ [] := fun hn => h (List.map_eq_nil_iff.mp hn)
  have hz : zs vs ≠ [] := fun hn => h (List.map_eq_nil_iff.mp hn)
  unfold bboxCenter
  rw [xs_centerGeometry, ys_centerGeometry, zs_centerGeometry]
  ext
  · exact coordCenter_recenter (xs vs) hx
  · exact coordCenter_recenter (ys vs) hy
  · exact coordCenter_recenter (zs vs) hz

theorem foldl_min_le_init (r : List ℚ) : ∀ a : ℚ, r.foldl min a ≤ a := by
  induction r with
  | nil => intro a; exact le_refl a
  | cons b r ih =>
    intro a
    exact le_trans (ih (min a b)) (min_le_left a b)

theorem foldl_min_le_mem (r : List ℚ) (x : ℚ) (hx : x ∈ r) :
    ∀ a : ℚ, r.foldl min a ≤ x := by
  induction r with
  | nil => cases hx
  | cons b r ih =>
    intro a
    rcases List.mem_cons.mp hx with h | h
    · subst h
      exact le_trans (foldl_min_le_init r (min a x)) (min_le_right a x)
    · exact ih h (min a b)

theorem init_le_foldl_max (r : List ℚ) : ∀ a : ℚ, a ≤ r.foldl max a := by
  induction r with
  | nil => intro a; exact le_refl a
  | cons b r ih =>
    intro a
    exact le_trans (le_max_left a b) (ih (max a b))

theorem mem_le_foldl_max (r : List ℚ) (x : ℚ) (hx : x ∈ r) :
    ∀ a : ℚ, x ≤ r.foldl max a := by
  induction r with
  | nil => cases hx
  | cons b r ih =>
    intro a
    rcases List.mem_cons.mp hx with h | h
    · subst h
      exact le_trans (le_max_right a x) (init_le_foldl_max r (max a x))
    · exact ih h (max a b)

theorem coordMin_le_mem (l : List ℚ) (x : ℚ) (hx : x ∈ l) : coordMin l ≤ x := by
  cases l with
  | nil => cases hx
  | cons a r =>
    rcases List.mem_cons.mp hx with h | h
    · subst h; exact foldl_min_le_init r x
    · exact foldl_min_le_mem r x h a

theorem mem_le_coordMax (l : List ℚ) (x : ℚ) (hx : x ∈ l) : x ≤ coordMax l := by
  cases l with
  | nil => cases hx
  | cons a r =>
    rcases List.mem_cons.mp hx with h | h
    · subst h; exact init_le_foldl_max r x
    · exact mem_le_foldl_max r x h a

theorem coordSize_nonneg (l : List ℚ) (h : l ≠ []) : 0 ≤ coordSize l := by
  cases l with
  | nil => exact absurd rfl h
  | cons a r =>
    have h1 : coordMin (a :: r) ≤ a := coordMin_le_mem _ a (List.mem_cons_self a r)
    have h2 : a ≤ coordMax (a :: r) := mem_le_coordMax _ a (List.mem_cons_self a r)
    unfold coordSize
    linarith

/-- A coordinate list of zero extent is constant. -/
theorem coordSize_eq_zero_all_eq (l : List ℚ) (h : coordSize l = 0)
    (x y : ℚ) (hx : x ∈ l) (hy : y ∈ l) : x = y := by
  have hmm : coordMax l = coordMin l := by
    unfold coordSize at h
    linarith
  have h1 := coordMin_le_mem l x hx
  have h2 := mem_le_coordMax l x hx
  have h3 := coordMin_le_mem l y hy
  have h4 := mem_le_coordMax l y hy
  rw [hmm] at h2 h4
  linarith

theorem foldl_min_const (a : ℚ) (r : List ℚ) (h : ∀ x ∈ r, x = a) :
    r.foldl min a = a := by
  induction r with
  | nil => rfl
  | cons b r ih =>
    have hb : b = a := h b (List.mem_cons_self b r)
    subst hb
    simp only [List.foldl_cons, min_self]
    exact ih (fun x hx => h x (List.mem_cons_of_mem b hx))

theorem foldl_max_const (a : ℚ) (r : List ℚ) (h : ∀ x ∈ r, x = a) :
    r.foldl max a = a := by
  induction r with
  | nil => rfl
  | cons b r ih =>
    have hb : b = a := h b (List.mem_cons_self b r)
    subst hb
    simp only [List.foldl_cons, max_self]
    exact ih (fun x hx => h x (List.mem_cons_of_mem b hx))

theorem coordSize_const (a : ℚ) (r : List ℚ) (h : ∀ x ∈ r, x = a) :
    coordSize (a :: r) = 0 := by
  have hmin : coordMin (a :: r) = a := foldl_min_const a r h
  have hmax : coordMax (a :: r) = a := foldl_max_const a r h
  unfold coordSize
  rw [hmin, hmax, sub_self]

/-- The largest bounding-box dimension of a nonempty vertex list vanishes
exactly when all vertices coincide (the degenerate bounding box). -/
theorem maxDim_cons_eq_zero_iff (v : V3) (vs : List V3) :
    maxDim (v :: vs) = 0 ↔ ∀ w ∈ v :: vs, w = v := by
  constructor
  · intro h0 w hw
    have hne : (v :: vs : List V3) ≠ [] := List.cons_ne_nil v vs
    have hxne : xs (v :: vs) ≠ [] := fun hn => hne (List.map_eq_nil_iff.mp hn)
    have hyne : ys (v :: vs) ≠ [] := fun hn => hne (List.map_eq_nil_iff.mp hn)
    have hzne : zs (v :: vs) ≠ [] := fun hn => hne (List.map_eq_nil_iff.mp hn)
    have hsx : 0 ≤ coordSize (xs (v :: vs)) := coordSize_nonneg _ hxne
    have hsy : 0 ≤ coordSize (ys (v :: vs)) := coordSize_nonneg _ hyne
    have hsz : 0 ≤ coordSize (zs (v :: vs)) := coordSize_nonneg _ hzne
    have hx0 : coordSize (xs (v :: vs)) = 0 := by
      have hle : coordSize (xs (v :: vs)) ≤ maxDim (v :: vs) :=
        le_trans (le_max_left _ _) (le_max_left _ _)
      linarith
    have hy0 : coordSize (ys (v :: vs)) = 0 := by
      have hle : coordSize (ys (v :: vs)) ≤ maxDim (v :: vs) :=
        le_trans (le_max_right _ _) (le_max_left _ _)
      linarith
    have hz0 : coordSize (zs (v :: vs)) = 0 := by
      have hle : coordSize (zs (v :: vs)) ≤ maxDim (v :: vs) := le_max_right _ _
      linarith
    have hwx : w.x ∈ xs (v :: vs) := List.mem_map_of_mem V3.x hw
    have hvx : v.x ∈ xs (v :: vs) := List.mem_map_of_mem V3.x (List.mem_cons_self v vs)
    have hwy : w.y ∈ ys (v :: vs) := List.mem_map_of_mem V3.y hw
    have hvy : v.y ∈ ys (v :: vs) := List.mem_map_of_mem V3.y (List.mem_cons_self v vs)
    have hwz : w.z ∈ zs (v :: vs) := List.mem_map_of_mem V3.z hw
    have hvz : v.z ∈ zs (v :: vs) := List.mem_map_of_mem V3.z (List.mem_cons_self v vs)
    ext
    · exact coordSize_eq_zero_all_eq _ hx0 w.x v.x hwx hvx
    · exact coordSize_eq_zero_all_eq _ hy0 w.y v.y hwy hvy
    · exact coordSize_eq_zero_all_eq _ hz0 w.z v.z hwz hvz
  · intro hall
    have hx : coordSize (xs (v :: vs)) = 0 := by
      have : ∀ x ∈ (vs.map V3.x), x = v.x := by
        intro x hx
        obtain ⟨w, hw, hwx⟩ := List.mem_map.mp hx
        rw [← hwx, hall w (List.mem_cons_of_mem v hw)]
      exact coordSize_const v.x (vs.map V3.x) this
    have hy : coordSize (ys (v :: vs)) = 0 := by
      have : ∀ x ∈ (vs.map V3.y), x = v.y := by
        intro x hx
        obtain ⟨w, hw, hwy⟩ := List.mem_map.mp hx
        rw [← hwy, hall w (List.mem_cons_of_mem v hw)]
      exact coordSize_const v.y (vs.map V3.y) this
    have hz : coordSize (zs (v :: vs)) = 0 := by
      have : ∀ x ∈ (vs.map V3.z), x = v.z := by
        intro x hx
        obtain ⟨w, hw, hwz⟩ := List.mem_map.mp hx
        rw [← hwz, hall w (List.mem_cons_of_mem v hw)]
      exact coordSize_const v.z (vs.map V3.z) this
    unfold maxDim bboxSize
    simp only [hx, hy, hz]
    simp

/-! ### Claim C3 -/

/-- C3: for a positive reference distance, a non-negative camera distance
and at least one detail level, the LOD index chosen by the controls change
listener lies in `[0, levels.length - 1]` and is monotonically
non-decreasing in the distance. -/
theorem claim_C3_lod_bounded_monotone (d maxD : ℚ) (n : ℕ)
    (hmaxD : 0 < maxD) (hd : 0 ≤ d) (hn : 1 ≤ n) :
    (0 ≤ lodIndex d maxD n ∧ lodIndex d maxD n ≤ (n : ℤ) - 1) ∧
    ∀ e : ℚ, d ≤ e → lodIndex d maxD n ≤ lodIndex e maxD n := by
  refine ⟨⟨?_, ?_⟩, ?_⟩
  · apply le_min
    · apply Int.floor_nonneg.mpr
      exact mul_nonneg (div_nonneg hd hmaxD.le) (Nat.cast_nonneg n)
    · omega
  · exact min_le_right _ _
  · intro e hde
    apply min_le_min _ le_rfl
    apply Int.floor_le_floor
    exact mul_le_mul_of_nonneg_right ((div_le_div_iff_of_pos_right hmaxD).mpr hde)
      (Nat.cast_nonneg n)

/-- Witness for C3 at distance 1, reference distance 2 and three levels,
with a second distance 100 for the monotonicity part. -/
theorem claim_C3_witness :
    (0 ≤ lodIndex 1 2 3 ∧ lodIndex 1 2 3 ≤ (3 : ℤ) - 1) ∧
    lodIndex 1 2 3 ≤ lodIndex 100 2 3 := by
  have h := claim_C3_lod_bounded_monotone 1 2 3 (by norm_num) (by norm_num) (by norm_num)
  exact ⟨h.1, h.2 100 (by norm_num)⟩

/-! ### Claim C8 -/

/-- C8: the Calculate handler stores the stringified evaluation result when
the `eval`-and-stringify oracle succeeds, fires the `Invalid expression`
toast and keeps the previous result unchanged when it throws, and never
touches the input field. -/
theorem claim_C8_calculator_eval (f : String → Option String) (s : CalcState) :
    (calculateExpression f s).result = (f s.expression).getD s.result ∧
    (calculateExpression f s).toasts =
      (match f s.expression with
       | some _ => "Calculation completed!"
       | none => "Invalid expression") :: s.toasts ∧
    (calculateExpression f s).expression = s.expression := by
  unfold calculateExpression
  cases f s.expression <;> simp

/-! ### Claim C9 -/

/-- C9: after only the format check, `loadOptimizedModel` reads
`data.levels[0]`; with at least one level present the access is in bounds
and the geometry of the first level is built, while for an empty `levels`
array no guard intervenes and the unguarded access aborts the function with
the modelled TypeError. -/
theorem claim_C9_levels_access (data : OptimizedMesh)
    (hfmt : data.format = "optimized-mesh") :
    (data.levels ≠ [] → ∃ level, data.levels.head? = some level ∧
        loadOptimizedModel data = .ok (buildGeometry level)) ∧
    (data.levels = [] → loadOptimizedModel data = .error "TypeError") := by
  unfold loadOptimizedModel
  rw [if_neg (by simp [hfmt])]
  constructor
  · intro hne
    cases hl : data.levels with
    | nil => exact absurd hl hne
    | cons a r => exact ⟨a, by simp [hl], by simp [hl]⟩
  · intro h0
    simp [h0]

/-- A one-level demo payload for the C9 witness. -/
def demoLevel : LODLevel :=
  ⟨[[0, 0, 0], [1, 0, 0], [0, 1, 0]], [[0, 1, 2]],
   [[0, 0, 1], [0, 0, 1], [0, 0, 1]], 1⟩

/-- A well-formed optimized-mesh payload with one detail level. -/
def demoPayload : OptimizedMesh := ⟨"optimized-mesh", 1, [demoLevel]⟩

/-- A format-correct payload with an empty `levels` array. -/
def emptyPayload : OptimizedMesh := ⟨"optimized-mesh", 1, []⟩

/-- Witness for C9: the demo payload loads its first level; the payload
with no levels ends in the modelled TypeError. -/
theorem claim_C9_witness :
    loadOptimizedModel demoPayload = .ok (buildGeometry demoLevel) ∧
    loadOptimizedModel emptyPayload = .error "TypeError" := by
  constructor
  · obtain ⟨level, hl, hres⟩ :=
      (claim_C9_levels_access demoPayload rfl).1 (by simp [demoPayload])
    have hld : level = demoLevel := by simpa [demoPayload] using hl.symm
    rw [hld] at hres
    exact hres
  · exact (claim_C9_levels_access emptyPayload rfl).2 rfl

/-! ### Claim C10 -/

/-- C10 counterexample: at `maxDim = 2` and the configured fov of 75, the
camera z set by the inline `loadModel` loader differs from the camera z set
by `useModelLoader`; the two camera-fit implementations do not agree. -/
theorem claim_C10_counterexample :
    cameraZ_loadModel 2 75 ≠ cameraZ_useModelLoader 2 75 := by
  have ht := tanHalfFov_pos
  have htne : tanHalfFov 75 ≠ 0 := ht.ne'
  unfold cameraZ_loadModel cameraZ_useModelLoader
  intro h
  field_simp [htne] at h

/-- C10 amended: `useModelLoader` and `loadOptimizedModel` set the same
camera z, while the inline `loadModel` loader sets exactly twice that
value for every largest dimension and fov. -/
theorem claim_C10_amended_camera_fit (maxD fov : ℝ) :
    cameraZ_useModelLoader maxD fov = cameraZ_loadOptimized maxD fov ∧
    cameraZ_loadModel maxD fov = 2 * cameraZ_useModelLoader maxD fov := by
  refine ⟨rfl, ?_⟩
  unfold cameraZ_loadModel cameraZ_useModelLoader
  rw [div_eq_mul_inv, div_eq_mul_inv, mul_inv]
  ring

/-! ### Claim C1 -/

/-- Under the scene invariant, the mesh cleared by a success callback
leaves the scene empty before the new mesh is attached. -/
theorem sceneInv_clear (s : VState) (h : sceneInv s) :
    (match s.meshRef with
     | some m => removeMesh s.scene m
     | none => s.scene) = [] := by
  obtain ⟨hlen, href⟩ := h
  cases hm : s.meshRef with
  | none =>
    cases hsc : s.scene with
    | nil => rfl
    | cons a r =>
      have hmem : a ∈ s.scene := by
        rw [hsc]
        exact List.mem_cons_self a r
      have hcontr := href a hmem
      rw [hm] at hcontr
      exact Option.noConfusion hcontr
  | some m =>
    apply List.filter_eq_nil_iff.mpr
    intro k hk
    have hmk := href k hk
    rw [hm] at hmk
    have hkm : k = m := (Option.some.inj hmk).symm
    simp [hkm]

theorem stepUML_preserves_sceneInv (s : VState) (e : Ev) (h : sceneInv s) :
    sceneInv (stepUML s e) := by
  cases e with
  | startLoad url init =>
    by_cases hg : url = "" ∨ init = false
    · simp only [stepUML, if_pos hg]
      exact h
    · simp only [stepUML, if_neg hg]
      exact ⟨h.1, h.2⟩
  | loadSuccess =>
    have hclear := sceneInv_clear s h
    refine ⟨?_, ?_⟩
    · show ((match s.meshRef with
             | some m => removeMesh s.scene m
             | none => s.scene) ++ [s.nextId]).length ≤ 1
      rw [hclear]
      simp
    · intro k hk
      show some s.nextId = some k
      have hk2 : k ∈ ((match s.meshRef with
                       | some m => removeMesh s.scene m
                       | none => s.scene) ++ [s.nextId]) := hk
      rw [hclear] at hk2
      simp at hk2
      rw [hk2]
  | loadError => exact ⟨h.1, h.2⟩
  | controlsChange => exact h

theorem runUML_preserves_sceneInv (s : VState) (es : List Ev) (h : sceneInv s) :
    sceneInv (runUML s es) := by
  induction es generalizing s with
  | nil => exact h
  | cons e es ih => exact ih (stepUML s e) (stepUML_preserves_sceneInv s e h)

/-- C1: every sequence of load events of the callback-shaped loaders keeps
at most one model mesh attached to the scene, because each success callback
removes the mesh held by `meshRef` before attaching the new one. -/
theorem claim_C1_single_mesh (es : List Ev) :
    (runUML initState es).scene.length ≤ 1 :=
  (runUML_preserves_sceneInv initState es (by decide)).1

/-! ### Claim C2 -/

/-- C2 counterexample: in `useModelLoader`, a load that completes while
mesh `0` is attached (the second `loadSuccess` below) replaces it without
disposing anything: the disposed sets stay empty. -/
theorem claim_C2_counterexample :
    (runUML initState
        [.startLoad "a" true, .loadSuccess, .startLoad "b" true]).scene = [0] ∧
    (runUML initState
        [.startLoad "a" true, .loadSuccess, .startLoad "b" true]).meshRef = some 0 ∧
    (runUML initState
        [.startLoad "a" true, .loadSuccess, .startLoad "b" true,
         .loadSuccess]).disposedGeom = [] ∧
    (runUML initState
        [.startLoad "a" true, .loadSuccess, .startLoad "b" true,
         .loadSuccess]).disposedMat = [] := by
  refine ⟨?_, ?_, ?_, ?_⟩ <;> decide

/-- C2 amended: only the `loadModel` variant disposes the previous mesh's
geometry and material, and it does so at load start (before the new mesh is
attached at `lmSuccess`); the `useModelLoader` success callback removes the
previous mesh without disposing either resource. -/
theorem claim_C2_amended_dispose (s : VState) (m : ℕ) (url : String)
    (hm : s.meshRef = some m) (hurl : url ≠ "") :
    ((stepLM s (.lmStart url true)).disposedGeom = m :: s.disposedGeom ∧
     (stepLM s (.lmStart url true)).disposedMat = m :: s.disposedMat ∧
     (stepLM s (.lmStart url true)).scene = removeMesh s.scene m) ∧
    ∀ t : VState, (stepUML t .loadSuccess).disposedGeom = t.disposedGeom ∧
      (stepUML t .loadSuccess).disposedMat = t.disposedMat := by
  constructor
  · have hg : ¬(url = "" ∨ true = false) := by simp [hurl]
    simp only [stepLM, if_neg hg, hm]
    exact ⟨trivial, trivial, trivial⟩
  · intro t
    exact ⟨rfl, rfl⟩

/-- Witness for C2 amended, with mesh `5` attached and a non-empty URL. -/
theorem claim_C2_witness :
    (stepLM ⟨[5], some 5, false, [], [], 6⟩ (.lmStart "u" true)).disposedGeom = [5] ∧
    (stepLM ⟨[5], some 5, false, [], [], 6⟩ (.lmStart "u" true)).disposedMat = [5] := by
  have h := claim_C2_amended_dispose ⟨[5], some 5, false, [], [], 6⟩ 5 "u" rfl (by decide)
  exact ⟨h.1.1, h.1.2.1⟩

/-! ### Claim C4 -/

/-- C4 counterexample: for a successfully loaded degenerate geometry (all
vertices coincident, largest bounding-box dimension zero), the divisor of
the `loadModel` auto-scale `const scale = 2 / maxDim` is zero. -/
theorem claim_C4_counterexample :
    lmScaleDivisor [⟨1, 2, 3⟩, ⟨1, 2, 3⟩] = 0 := by
  norm_num [lmScaleDivisor, maxDim, bboxSize, coordSize, coordMax, coordMin,
    xs, ys, zs]

/-- C4 amended: the divisors of the camera-distance arithmetic —
`2 * tan(fov*pi/360)` in `useModelLoader` and `tan(fov*pi/360)` in
`loadModel`, at the configured fov of 75 — are nonzero for every geometry,
degenerate bounding box included; the `loadModel` auto-scale divisor,
however, is the largest bounding-box dimension itself, which vanishes
exactly when all vertices coincide. -/
theorem claim_C4_amended_divisors :
    (0 < umlDistanceDivisor 75 ∧ 0 < lmCameraDivisor 75) ∧
    ∀ (v : V3) (vs : List V3),
      lmScaleDivisor (v :: vs) = 0 ↔ ∀ w ∈ v :: vs, w = v := by
  refine ⟨⟨?_, ?_⟩, ?_⟩
  · show 0 < 2 * tanHalfFov 75
    exact mul_pos two_pos tanHalfFov_pos
  · exact tanHalfFov_pos
  · intro v vs
    exact maxDim_cons_eq_zero_iff v vs

/-- Witness for C4 amended: a single-vertex geometry has a degenerate
bounding box, so the `loadModel` scale divisor is zero there. -/
theorem claim_C4_witness : lmScaleDivisor [⟨2, 2, 2⟩] = 0 :=
  (claim_C4_amended_divisors.2 ⟨2, 2, 2⟩ []).mpr
    (fun _ hw => List.mem_singleton.mp hw)

/-! ### Claim C5 -/

/-- C5 counterexample: the inline STL effect of ThreeViewer.tsx copies the
pre-centering bounding-box center into `mesh.position`, so a model whose
original center is `(1, 2, 3)` is displayed there, not at the origin. -/
theorem claim_C5_counterexample :
    (threeViewerPlace [⟨0, 0, 0⟩, ⟨2, 4, 6⟩]).position = ⟨1, 2, 3⟩ ∧
    ((⟨1, 2, 3⟩ : V3) ≠ ⟨0, 0, 0⟩) := by
  constructor
  · norm_num [threeViewerPlace, bboxCenter, coordCenter, coordMax, coordMin,
      xs, ys, zs]
  · intro h
    have hx : (1 : ℚ) = 0 := congrArg V3.x h
    exact one_ne_zero hx

/-- C5 amended: every variant translates the geometry so its bounding-box
center is at the origin; the `loadModel` variant leaves the mesh at the
origin (so the displayed model is centered), while the ThreeViewer.tsx
variant sets the mesh position to the original bounding-box center. -/
theorem claim_C5_amended_centering (vs : List V3) (hne : vs ≠ []) :
    bboxCenter (loadModelPlace vs).verts = ⟨0, 0, 0⟩ ∧
    (loadModelPlace vs).position = ⟨0, 0, 0⟩ ∧
    bboxCenter (threeViewerPlace vs).verts = ⟨0, 0, 0⟩ ∧
    (threeViewerPlace vs).position = bboxCenter vs := by
  refine ⟨?_, rfl, ?_, rfl⟩
  · exact bboxCenter_centerGeometry vs hne
  · exact bboxCenter_centerGeometry vs hne

/-- Witness for C5 amended on a concrete two-vertex geometry. -/
theorem claim_C5_witness :
    bboxCenter (loadModelPlace [⟨0, 0, 0⟩, ⟨2, 4, 6⟩]).verts = ⟨0, 0, 0⟩ ∧
    (loadModelPlace [⟨0, 0, 0⟩, ⟨2, 4, 6⟩]).position = ⟨0, 0, 0⟩ := by
  have h := claim_C5_amended_centering [⟨0, 0, 0⟩, ⟨2, 4, 6⟩] (by decide)
  exact ⟨h.1, h.2.1⟩

/-! ### Claim C6 -/

/-- C6 counterexample: in the `loadModel` variant the previously attached
mesh `0` is removed and disposed when the load starts, so after a failed
load the scene no longer holds it — the scene is not unchanged. -/
theorem claim_C6_counterexample :
    (⟨[0], some 0, false, [], [], 1⟩ : VState).scene = [0] ∧
    (runLM ⟨[0], some 0, false, [], [], 1⟩ [.lmStart "u" true, .lmError]).scene = [] ∧
    (runLM ⟨[0], some 0, false, [], [], 1⟩
        [.lmStart "u" true, .lmError]).disposedGeom = [0] := by
  refine ⟨rfl, ?_, ?_⟩ <;> decide

/-- C6 amended: every error handler only clears the loading flag (plus a
toast), with no retry; a failed load leaves the scene exactly as it was
before the load began in the callback-shaped loaders, whereas in the
`loadModel` variant the previous mesh was already removed and disposed at
load start. -/
theorem claim_C6_amended_error_handling :
    (∀ s : VState, stepUML s .loadError = { s with isLoading := false }) ∧
    (∀ s : VState, stepLM s .lmError = { s with isLoading := false }) ∧
    (∀ (s : VState) (url : String) (init : Bool),
      (runUML s [.startLoad url init, .loadError]).scene = s.scene ∧
      (runUML s [.startLoad url init, .loadError]).meshRef = s.meshRef ∧
      (runUML s [.startLoad url init, .loadError]).disposedGeom = s.disposedGeom ∧
      (runUML s [.startLoad url init, .loadError]).disposedMat = s.disposedMat) := by
  refine ⟨fun s => rfl, fun s => rfl, fun s url init => ?_⟩
  by_cases h : url = "" ∨ init = false <;>
    simp [runUML, stepUML, h]

/-! ### Claim C7 -/

/-- C7: the loading flag is driven exactly by the load events: a load start
whose guard passes (non-empty URL, initialized scene) raises it, every
completion — success or error — lowers it, and no other event changes it,
in both the callback-shaped loaders and the `loadModel` variant. -/
theorem claim_C7_loading_flag (s : VState) (e : Ev) (e2 : EvLM) :
    (stepUML s e).isLoading =
      (match e with
       | .startLoad url sceneInit =>
         if url = "" ∨ sceneInit = false then s.isLoading else true
       | .loadSuccess => false
       | .loadError => false
       | .controlsChange => s.isLoading) ∧
    (stepLM s e2).isLoading =
      (match e2 with
       | .lmStart url sceneInit =>
         if url = "" ∨ sceneInit = false then s.isLoading else true
       | .lmSuccess => false
       | .lmError => false) := by
  constructor
  · cases e with
    | startLoad url init =>
      by_cases h : url = "" ∨ init = false <;> simp [stepUML, h]
    | loadSuccess => rfl
    | loadError => rfl
    | controlsChange => rfl
  · cases e2 with
    | lmStart url init =>
      by_cases h : url = "" ∨ init = false
      · simp [stepLM, h]
      · cases hm : s.meshRef <;> simp [stepLM, h, hm]
    | lmSuccess => rfl
    | lmError => rfl

end ShapeExplorer
